import Mathlib

/-!
Verification of the AI Resume Scorer backend (`src/main.py`).

The development shallowly embeds the Python module: JSON values are an
inductive family, `json.loads` / `json.dumps` are executable fueled
functions, pydantic validation of `ResumeScoreResponse` is a function on
parsed objects, and the generate-validate-retry loop `process_resume` is
a fueled loop over an abstract model oracle (the external Gemini call is
the only unmodelled effect: it is a parameter `model : String → Nat → String`
giving the raw response text of the i-th call for a given prompt).
-/

set_option maxRecDepth 40000

/- A parsed Python JSON value, as produced by `json.loads`.  Numbers are
modelled as exact rationals (Python distinguishes `int` and `float`; both
arise from the single `jnum` constructor here, which is faithful for every
property stated below).  Objects (`JFields`) are association lists in
insertion order with distinct keys, mirroring a Python `dict`. -/
mutual
inductive JValue where
  | jnull
  | jbool (b : Bool)
  | jnum (q : ℚ)
  | jstr (s : String)
  | jarr (elems : JList)
  | jobj (fields : JFields)
deriving DecidableEq
inductive JList where
  | nil
  | cons (hd : JValue) (tl : JList)
deriving DecidableEq
inductive JFields where
  | nil
  | cons (k : String) (v : JValue) (tl : JFields)
deriving DecidableEq
end

deriving instance DecidableEq for Except

/-- Python truthiness (`bool(v)`) of a parsed JSON value: `None`, `False`,
`0`, the empty string, the empty array and the empty object are falsy,
everything else truthy. -/
def truthy : JValue → Bool
  | .jnull => false
  | .jbool b => b
  | .jnum q => if q = 0 then false else true
  | .jstr s => if s = "" then false else true
  | .jarr xs => if xs = .nil then false else true
  | .jobj d => if d = .nil then false else true

/-- `d.get(k)` on a Python dict modelled as an association list with
distinct keys. -/
def dictGet : JFields → String → Option JValue
  | .nil, _ => none
  | .cons k' v rest, k => if k' = k then some v else dictGet rest k

/-- Insert-or-replace a key, keeping the original position on replacement,
exactly as assignment into a Python dict does. -/
def setKey : JFields → String → JValue → JFields
  | .nil, k, v => .cons k v .nil
  | .cons k' v' rest, k, v =>
      if k' = k then .cons k v rest else .cons k' v' (setKey rest k v)

/-- Fold a parsed sequence of key/value pairs into a dict, later duplicate
keys overwriting earlier values (position kept), as `dict(pairs)` does. -/
def buildDictAux : JFields → JFields → JFields
  | acc, .nil => acc
  | acc, .cons k v rest => buildDictAux (setKey acc k v) rest

/-- Whether a JSON value is an object (a Python `dict` after parsing). -/
def isObj : JValue → Bool
  | .jobj _ => true
  | _ => false

/-- Embed a Lean list of strings as a JSON array of strings. -/
def jstrList : List String → JList
  | [] => .nil
  | s :: rest => .cons (.jstr s) (jstrList rest)

-- ## Plain string machinery shared by the cleanup step and the parser.

/-- The whitespace characters stripped by Python's `str.strip()` (the
ASCII ones; the resume scorer never meets the exotic unicode spaces). -/
def pyIsSpace (c : Char) : Bool :=
  c = ' ' ∨ c = '\t' ∨ c = '\n' ∨ c = '\r' ∨ c = '\x0b' ∨ c = '\x0c'

/-- `pat` matches at the head of `cs`. -/
def listMatches : List Char → List Char → Bool
  | [], _ => true
  | _ :: _, [] => false
  | p :: ps, c :: cs => p = c && listMatches ps cs

/-- `pat` occurs somewhere in `cs` (as `pat in cs` for Python strings). -/
def hasOcc (pat : List Char) : List Char → Bool
  | [] => listMatches pat []
  | c :: rest => listMatches pat (c :: rest) || hasOcc pat rest

/-- One left-to-right pass replacing every non-overlapping occurrence of
`pat` by `rep`, the semantics of Python's `str.replace`; `fuel` bounds the
scan (one unit per consumed character suffices). -/
def replaceFrom : Nat → List Char → List Char → List Char → List Char
  | 0, _, _, cs => cs
  | _ + 1, [], _, cs => cs
  | fuel + 1, p :: ps, rep, cs =>
      match cs with
      | [] => []
      | c :: rest =>
          if listMatches (p :: ps) (c :: rest) then
            rep ++ replaceFrom fuel (p :: ps) rep (List.drop (p :: ps).length (c :: rest))
          else
            c :: replaceFrom fuel (p :: ps) rep rest

/-- Python `s.replace(pat, rep)` for a non-empty pattern. -/
def pyReplace (s pat rep : String) : String :=
  String.mk (replaceFrom (s.length + 1) pat.data rep.data s.data)

/-- Python `s.startswith(pre)`. -/
def strStartsWith (s pre : String) : Bool :=
  listMatches pre.data s.data

/-- Drop the characters satisfying `p` from both ends of a list. -/
def stripEnds (p : Char → Bool) (cs : List Char) : List Char :=
  ((cs.dropWhile p).reverse.dropWhile p).reverse

/-- Python `s.strip()`: remove whitespace from both ends. -/
def pyStrip (s : String) : String :=
  String.mk (stripEnds pyIsSpace s.data)

/-- Python `s.strip(c)` for a single strip character `c`. -/
def pyStripChar (c : Char) (s : String) : String :=
  String.mk (stripEnds (fun x => x = c) s.data)

/-- Python `pat in s` for strings: `pat` occurs as a substring of `s`. -/
def strContains (s pat : String) : Bool :=
  hasOcc pat.data s.data

-- ## `json.loads`: a strict JSON parser (RFC 8259, as Python's default).

/-- Skip JSON inter-token whitespace (exactly space, tab, LF, CR). -/
def skipWs : List Char → List Char
  | c :: cs => if c = ' ' ∨ c = '\t' ∨ c = '\n' ∨ c = '\r' then skipWs cs else c :: cs
  | [] => []

/-- Value of a hexadecimal digit, if any. -/
def hexVal (c : Char) : Option Nat :=
  if '0' ≤ c ∧ c ≤ '9' then some (c.toNat - 48)
  else if 'a' ≤ c ∧ c ≤ 'f' then some (c.toNat - 87)
  else if 'A' ≤ c ∧ c ≤ 'F' then some (c.toNat - 55)
  else none

/-- Split off the maximal run of decimal digits. -/
def takeDigits : List Char → List Char × List Char
  | [] => ([], [])
  | c :: rest =>
      if c.isDigit then
        let (ds, r) := takeDigits rest
        (c :: ds, r)
      else ([], c :: rest)

/-- Numeric value of a digit run. -/
def digitsVal (ds : List Char) : Nat :=
  ds.foldl (fun a c => 10 * a + (c.toNat - 48)) 0

/-- Parse the body of a JSON string literal (after the opening quote),
returning the decoded characters and the rest of the input.  Handles the
JSON escapes including `\uXXXX`; unescaped control characters are
rejected, as Python's strict default does. -/
def parseStringBody : Nat → List Char → Option (List Char × List Char)
  | 0, _ => none
  | _ + 1, [] => none
  | fuel + 1, c :: rest =>
      if c = '"' then some ([], rest)
      else if c = '\\' then
        match rest with
        | [] => none
        | e :: rest' =>
            let cont (d : Char) (r : List Char) : Option (List Char × List Char) :=
              (parseStringBody fuel r).map (fun (s, r') => (d :: s, r'))
            if e = '"' then cont '"' rest'
            else if e = '\\' then cont '\\' rest'
            else if e = '/' then cont '/' rest'
            else if e = 'b' then cont '\x08' rest'
            else if e = 'f' then cont '\x0c' rest'
            else if e = 'n' then cont '\n' rest'
            else if e = 'r' then cont '\r' rest'
            else if e = 't' then cont '\t' rest'
            else if e = 'u' then
              match rest' with
              | h1 :: h2 :: h3 :: h4 :: rest'' =>
                  match hexVal h1, hexVal h2, hexVal h3, hexVal h4 with
                  | some a, some b, some c3, some d4 =>
                      cont (Char.ofNat (((a * 16 + b) * 16 + c3) * 16 + d4)) rest''
                  | _, _, _, _ => none
              | _ => none
            else none
      else if c.toNat < 32 then none
      else (parseStringBody fuel rest).map (fun (s, r') => (c :: s, r'))

/-- Parse a JSON number per the strict grammar (`-?int frac? exp?`, no
leading zeros, non-empty digit runs), as an exact rational.  All the
arithmetic is done on `Int`/`Nat`, the final value built with `mkRat`. -/
def parseNumber (cs : List Char) : Option (ℚ × List Char) :=
  let (neg, cs1) := match cs with
    | '-' :: r => (true, r)
    | _ => (false, cs)
  match cs1 with
  | [] => none
  | c :: _ =>
      if ¬ c.isDigit then none
      else
        let (ids, cs2) := takeDigits cs1
        if 1 < ids.length ∧ ids.head? = some '0' then none
        else
          let fracPart : Option (Nat × Nat × List Char) :=
            match cs2 with
            | '.' :: r =>
                let (fds, r') := takeDigits r
                if fds = [] then none else some (digitsVal fds, fds.length, r')
            | _ => some (0, 0, cs2)
          match fracPart with
          | none => none
          | some (fv, fl, cs3) =>
              let mant : Nat := digitsVal ids * 10 ^ fl + fv
              let expPart : Option (Bool × Nat × List Char) :=
                match cs3 with
                | e :: r =>
                    if e = 'e' ∨ e = 'E' then
                      let (esign, r1) : Bool × List Char :=
                        match r with
                        | '+' :: r2 => (false, r2)
                        | '-' :: r2 => (true, r2)
                        | _ => (false, r)
                      let (eds, r2) := takeDigits r1
                      if eds = [] then none else some (esign, digitsVal eds, r2)
                    else some (false, 0, cs3)
                | [] => some (false, 0, cs3)
              match expPart with
              | none => none
              | some (esign, ev, cs4) =>
                  let num : Int := if neg then -(mant : Int) else (mant : Int)
                  let q : ℚ :=
                    if esign then mkRat num (10 ^ (fl + ev))
                    else mkRat (num * (10 ^ ev : Nat)) (10 ^ fl)
                  some (q, cs4)

/-- Result of one step of the recursive-descent parser: a value, the tail
of an array, or the tail of an object. -/
inductive POut where
  | pv (v : JValue)
  | pl (l : JList)
  | pf (l : JFields)

/-- Parser mode: a single value, the elements of an array (after `[`, at
least one element known to follow), or the members of an object. -/
inductive PMode where
  | val
  | elems
  | fields

/-- The recursive-descent JSON parser, fueled for structural recursion. -/
def parseF : Nat → PMode → List Char → Option (POut × List Char)
  | 0, _, _ => none
  | fuel + 1, .val, cs =>
      match skipWs cs with
      | [] => none
      | c :: rest =>
          if c = 'n' then
            match rest with
            | 'u' :: 'l' :: 'l' :: r => some (.pv .jnull, r)
            | _ => none
          else if c = 't' then
            match rest with
            | 'r' :: 'u' :: 'e' :: r => some (.pv (.jbool true), r)
            | _ => none
          else if c = 'f' then
            match rest with
            | 'a' :: 'l' :: 's' :: 'e' :: r => some (.pv (.jbool false), r)
            | _ => none
          else if c = '"' then
            (parseStringBody (fuel + 1) rest).map (fun (s, r) => (.pv (.jstr (String.mk s)), r))
          else if c = '[' then
            match skipWs rest with
            | ']' :: r => some (.pv (.jarr .nil), r)
            | r =>
                match parseF fuel .elems r with
                | some (.pl l, r') => some (.pv (.jarr l), r')
                | _ => none
          else if c = '\x7b' then
            match skipWs rest with
            | '\x7d' :: r => some (.pv (.jobj .nil), r)
            | r =>
                match parseF fuel .fields r with
                | some (.pf l, r') => some (.pv (.jobj (buildDictAux .nil l)), r')
                | _ => none
          else if c = '-' ∨ c.isDigit then
            (parseNumber (c :: rest)).map (fun (q, r) => (.pv (.jnum q), r))
          else none
  | fuel + 1, .elems, cs =>
      match parseF fuel .val cs with
      | some (.pv v, r) =>
          (match skipWs r with
           | ',' :: r' =>
               match parseF fuel .elems r' with
               | some (.pl l, r'') => some (.pl (.cons v l), r'')
               | _ => none
           | ']' :: r' => some (.pl (.cons v .nil), r')
           | _ => none)
      | _ => none
  | fuel + 1, .fields, cs =>
      match skipWs cs with
      | '"' :: r =>
          match parseStringBody (fuel + 1) r with
          | some (k, r1) =>
              (match skipWs r1 with
               | ':' :: r2 =>
                   match parseF fuel .val r2 with
                   | some (.pv v, r3) =>
                       (match skipWs r3 with
                        | ',' :: r4 =>
                            match parseF fuel .fields r4 with
                            | some (.pf l, r5) => some (.pf (.cons (String.mk k) v l), r5)
                            | _ => none
                        | '\x7d' :: r4 => some (.pf (.cons (String.mk k) v .nil), r4)
                        | _ => none)
                   | _ => none
               | _ => none)
          | none => none
      | _ => none

/-- Python's `json.loads`: parse one JSON document, requiring only
whitespace after it; `none` models raising `json.JSONDecodeError`. -/
def json_loads (s : String) : Option JValue :=
  match parseF (2 * s.length + 4) .val s.data with
  | some (.pv v, rest) => if skipWs rest = [] then some v else none
  | _ => none

example : json_loads "nope" = none := by decide
example : json_loads " \x7b\"a\": [1, 2.5, \"x\"], \"b\": null\x7d " =
    some (.jobj (.cons "a" (.jarr (.cons (.jnum 1) (.cons (.jnum (mkRat 5 2))
      (.cons (.jstr "x") .nil)))) (.cons "b" .jnull .nil))) := by decide
example : json_loads "\x7b\"a\": 1, \"a\": 2\x7d" =
    some (.jobj (.cons "a" (.jnum 2) .nil)) := by decide
example : json_loads "[1, 2] trailing" = none := by decide
example : json_loads "01" = none := by decide
example : json_loads "-1.5e2" = some (.jnum (-150)) := by decide
example : json_loads "\"a\\u0041b\"" = some (.jstr "aAb") := by decide

-- ## `json.dumps` with Python's defaults (`ensure_ascii=True`,
-- separators `", "` and `": "`).

/-- Hexadecimal digit character (lowercase), as Python prints escapes. -/
def hexDigitChar (n : Nat) : Char :=
  Char.ofNat (if n < 10 then 48 + n else 87 + n)

/-- A `\uXXXX` escape for a 16-bit code unit. -/
def u16Escape (n : Nat) : String :=
  String.mk ['\\', 'u', hexDigitChar (n / 4096 % 16), hexDigitChar (n / 256 % 16),
             hexDigitChar (n / 16 % 16), hexDigitChar (n % 16)]

/-- Serialize one character of a JSON string as Python's `json.dumps`
does: escape quote, backslash and control characters, and escape
everything non-ASCII (`ensure_ascii=True`), using surrogate pairs beyond
the BMP. -/
def escapeChar (c : Char) : String :=
  if c = '"' then "\\\""
  else if c = '\\' then "\\\\"
  else if c = '\n' then "\\n"
  else if c = '\r' then "\\r"
  else if c = '\t' then "\\t"
  else if c = '\x08' then "\\b"
  else if c = '\x0c' then "\\f"
  else if c.toNat < 32 then u16Escape c.toNat
  else if c.toNat < 127 then String.mk [c]
  else if c.toNat < 65536 then u16Escape c.toNat
  else
    let v := c.toNat - 65536
    u16Escape (55296 + v / 1024) ++ u16Escape (56320 + v % 1024)

/-- Serialize a JSON string literal. -/
def dumpStr (s : String) : String :=
  "\"" ++ String.join (s.data.map escapeChar) ++ "\""

/-- Decimal digits of a fractional part `0 ≤ q < 1`, fueled.  Every
number produced by the parser has a denominator dividing a power of ten,
so the expansion below is exact for them (Python prints floats via their
shortest decimal representation; the binary rounding of exotic literals
is outside this model, and nothing specified depends on it). -/
def fracDigits : Nat → ℚ → String
  | 0, _ => ""
  | fuel + 1, q =>
      if q = 0 then ""
      else
        let q10 := q * 10
        let d : ℤ := Rat.floor q10
        toString d.toNat ++ fracDigits fuel (q10 - (d : ℚ))

/-- Serialize a JSON number: integers as Python ints, non-integral
rationals by their decimal expansion. -/
def dumpNum (q : ℚ) : String :=
  if q.den = 1 then toString q.num
  else
    let a := if q < 0 then -q else q
    (if q < 0 then "-" else "") ++ toString (Rat.floor a) ++ "." ++
      fracDigits 64 (a - (Rat.floor a : ℚ))

/- The serializer proper: one function per sort of the mutual family,
with Python's default separators `", "` and `": "`. -/
mutual
def dumpVal : JValue → String
  | .jnull => "null"
  | .jbool true => "true"
  | .jbool false => "false"
  | .jnum q => dumpNum q
  | .jstr s => dumpStr s
  | .jarr l => "[" ++ dumpElems l ++ "]"
  | .jobj l => "\x7b" ++ dumpMembers l ++ "\x7d"
def dumpElems : JList → String
  | .nil => ""
  | .cons v .nil => dumpVal v
  | .cons v tl => dumpVal v ++ ", " ++ dumpElems tl
def dumpMembers : JFields → String
  | .nil => ""
  | .cons k v .nil => dumpStr k ++ ": " ++ dumpVal v
  | .cons k v tl => dumpStr k ++ ": " ++ dumpVal v ++ ", " ++ dumpMembers tl
end

/-- Python's `json.dumps` with default arguments. -/
def json_dumps (v : JValue) : String :=
  dumpVal v

example : json_dumps (.jobj (.cons "other" (.jstr "bar") .nil)) =
    "\x7b\"other\": \"bar\"\x7d" := by decide
example : json_dumps (.jobj (.cons "resume_text" (.jnum 0) .nil)) =
    "\x7b\"resume_text\": 0\x7d" := by decide

-- ## The pydantic response model and its validation.

/-- The response schema of `src/main.py` (`class ResumeScoreResponse`):
`summary: str`, `skills_score: float`, `experience_score: float`,
`overall_score: float`, `feedback: str`, `missing_aspects: list[str]`.
All fields required, none constrained beyond its type. -/
structure ResumeScoreResponse where
  summary : String
  skills_score : ℚ
  experience_score : ℚ
  overall_score : ℚ
  feedback : String
  missing_aspects : List String
deriving DecidableEq

/-- Validate a `str` field: present and a JSON string. -/
def asStr : Option JValue → Option String
  | some (.jstr s) => some s
  | _ => none

/-- Validate a `float` field: present and a JSON number (pydantic accepts
both ints and floats here; both are `jnum`).  No range is checked.
Pydantic's lax coercion of numeric strings is not modelled; no specified
behavior depends on it. -/
def asNum : Option JValue → Option ℚ
  | some (.jnum q) => some q
  | _ => none

/-- Every element of the array is a string. -/
def allStrings : JList → Option (List String)
  | .nil => some []
  | .cons (.jstr s) rest => (allStrings rest).map (fun l => s :: l)
  | .cons _ _ => none

/-- Validate a `list[str]` field: present, an array, all elements
strings.  No length constraint is checked. -/
def asStrList : Option JValue → Option (List String)
  | some (.jarr xs) => allStrings xs
  | _ => none

/-- `ResumeScoreResponse(**data)` for a dict `data`: succeed iff every
one of the six declared fields is present with a value of its declared
type (extra keys are ignored, pydantic's default), and return the
populated model; `none` models raising `pydantic.ValidationError`. -/
def pydantic_validate (d : JFields) : Option ResumeScoreResponse :=
  match asStr (dictGet d "summary"), asNum (dictGet d "skills_score"),
        asNum (dictGet d "experience_score"), asNum (dictGet d "overall_score"),
        asStr (dictGet d "feedback"), asStrList (dictGet d "missing_aspects") with
  | some su, some sk, some ex, some ov, some fb, some ms =>
      some ⟨su, sk, ex, ov, fb, ms⟩
  | _, _, _, _, _, _ => none

/-- `validate_and_parse_json` of `src/main.py`: parse the cleaned text
and validate it, returning the raw parsed dict on success.  `.ok none`
models returning `None` (a caught `JSONDecodeError` or
`ValidationError`); `.error ()` models the uncaught `TypeError` raised by
`ResumeScoreResponse(**data)` when the parsed document is not a dict. -/
def validate_and_parse_json (raw_text : String) : Except Unit (Option JFields) :=
  match json_loads raw_text with
  | none => .ok none
  | some (.jobj d) =>
      match pydantic_validate d with
      | some _ => .ok (some d)
      | none => .ok none
  | some _ => .error ()

-- ## `clean_json` and the generate-validate-retry loop.

/-- `clean_json` of `src/main.py`: if the raw text starts with a code
fence, strip every backtick from both ends, delete every occurrence of
the substring `"json"`, and trim whitespace; otherwise return the text
unchanged. -/
def clean_json (raw_text : String) : String :=
  if strStartsWith raw_text "```" then
    pyStrip (pyReplace (pyStripChar '`' raw_text) "json" "")
  else raw_text

/-- The fixed prompt template of `process_resume` (an f-string with the
resume text interpolated; `\x7b\x7b`/`\x7d\x7d` of the source render as
literal braces). -/
def build_prompt (resume_text : String) : String :=
  "\n    You are an expert HR and career coach.\n    Analyze the following resume and:\n    1. Summarize it in 1-2 sentences under the key \"summary\".\n    2. Give a score from 1-10 for Skills.\n    3. Give a score from 1-10 for Experience.\n    4. Give an overall score from 1-10.\n    5. Provide constructive feedback in 2-3 sentences.\n    6. List 2-4 key aspects missing from the resume in \"missing_aspects\".\n\n    Resume:\n    "
    ++ resume_text ++
    "\n\n    Return ONLY valid JSON in this format:\n    \x7b\n      \"summary\": \"string\",\n      \"skills_score\": number,\n      \"experience_score\": number,\n      \"overall_score\": number,\n      \"feedback\": \"string\",\n      \"missing_aspects\": [\"string\", \"string\", \"string\"]\n    \x7d\n    No markdown. No code blocks. No extra text.\n    "

/-- `call_gemini` of `src/main.py`: the model's raw response text for the
i-th call on this prompt, stripped of surrounding whitespace.  The
external model is the oracle parameter. -/
def call_gemini (model : String → Nat → String) (prompt : String) (i : Nat) : String :=
  pyStrip (model prompt i)

/-- One iteration body of the retry loop:
`validate_and_parse_json(clean_json(call_gemini(prompt)))`. -/
def run_attempt (model : String → Nat → String) (prompt : String) (i : Nat) :
    Except Unit (Option JFields) :=
  validate_and_parse_json (clean_json (call_gemini model prompt i))

/-- How `process_resume` can fail: `HTTPException(500, ...)` after three
failed attempts, or an exception escaping the handler (FastAPI turns it
into a generic 500). -/
inductive ProcError where
  | modelOutputInvalid
  | uncaughtError
deriving DecidableEq

/-- The `for attempt in range(3)` loop of `process_resume`, returning the
outcome together with the number of model calls made.  A validated parse
is returned at once (`if parsed:` — pydantic guarantees the dict is
non-empty, but the Python truthiness test is kept faithfully); a `None`
moves to the next attempt; a non-dict document raises. -/
def attempt_loop (model : String → Nat → String) (prompt : String) :
    Nat → Nat → Except ProcError ResumeScoreResponse × Nat
  | _, 0 => (.error .modelOutputInvalid, 0)
  | i, fuel + 1 =>
      match run_attempt model prompt i with
      | .error _ => (.error .uncaughtError, 1)
      | .ok (some d) =>
          if d = .nil then
            let (r, n) := attempt_loop model prompt (i + 1) fuel
            (r, n + 1)
          else
            match pydantic_validate d with
            | some r => (.ok r, 1)
            | none => (.error .uncaughtError, 1)
      | .ok none =>
          let (r, n) := attempt_loop model prompt (i + 1) fuel
          (r, n + 1)

/-- `process_resume` of `src/main.py`: build the prompt and run at most
three generate-clean-validate attempts. -/
def process_resume (resume_text : String) (model : String → Nat → String) :
    Except ProcError ResumeScoreResponse × Nat :=
  attempt_loop model (build_prompt resume_text) 0 3

/-- An HTTP error response (status code and detail message). -/
structure HTTPError where
  status : Nat
  detail : String
deriving DecidableEq

/-- How a loop failure surfaces over HTTP: the explicit
`HTTPException(500, ...)` after exhausted retries, or FastAPI's generic
500 for an uncaught exception. -/
def procToHTTP : ProcError → HTTPError
  | .modelOutputInvalid => ⟨500, "Model failed to return valid JSON after 3 attempts"⟩
  | .uncaughtError => ⟨500, "Internal Server Error"⟩

/-- The `POST /score` endpoint: run the loop on the given resume text,
returning the response or error plus the number of model calls. -/
def score_resume (resume_text : String) (model : String → Nat → String) :
    Except HTTPError ResumeScoreResponse × Nat :=
  let (r, n) := process_resume resume_text model
  (r.mapError procToHTTP, n)

-- ## The `POST /upload` endpoint.

/-- `extract_text_from_pdf` of `src/main.py`.  PyPDF2 is an external
collaborator: its view of the uploaded bytes is either an exception
message (the document fails to open) or the list of per-page
`extract_text()` results, `none` standing for a page that yields no text
(`page.extract_text() or ""` turns it into the empty string).  The page
texts are accumulated with `+=` in page order and the total is stripped. -/
def extract_text_from_pdf (doc : Except String (List (Option String))) :
    Except HTTPError String :=
  match doc with
  | .error e => .error ⟨400, "Error reading PDF: " ++ e⟩
  | .ok pages => .ok (pyStrip (pages.foldl (fun acc p => acc ++ p.getD "") ""))

/-- An uploaded file as the handler sees it: its declared content type,
the PyPDF2 view of its bytes (consulted only on the PDF branch) and its
raw text (consulted only on the JSON branch). -/
structure UploadFile where
  content_type : String
  pdfDoc : Except String (List (Option String))
  body : String

/-- Python `str()` of the value bound to `resume_text`, as the f-string
interpolation renders it.  Strings stay themselves, scalars print the
Python way; for containers, Python's `repr` differs from `json.dumps`
only in quoting, and no specified behavior depends on it, so the dump is
used. -/
def pyStr : JValue → String
  | .jstr s => s
  | .jnull => "None"
  | .jbool true => "True"
  | .jbool false => "False"
  | .jnum q => dumpNum q
  | v => json_dumps v

/-- The input-acquisition part of `upload_resume`: dispatch on the
content type and produce the value bound to `resume_text` (or an HTTP
400).  On the JSON branch, `data.get("resume_text") or json.dumps(data)`
takes the field's value when it is truthy and the serialized document
otherwise; a document that is not a dict raises `AttributeError` inside
the `try`, caught by the same `except` as malformed JSON. -/
def upload_acquire (file : UploadFile) : Except HTTPError JValue :=
  if file.content_type = "application/pdf" then
    (extract_text_from_pdf file.pdfDoc).map .jstr
  else if file.content_type = "application/json" then
    match json_loads file.body with
    | none => .error ⟨400, "Invalid JSON file"⟩
    | some (.jobj d) =>
        match dictGet d "resume_text" with
        | some v => if truthy v then .ok v else .ok (.jstr (json_dumps (.jobj d)))
        | none => .ok (.jstr (json_dumps (.jobj d)))
    | some _ => .error ⟨400, "Invalid JSON file"⟩
  else .error ⟨400, "Only PDF or JSON files are supported"⟩

/-- The `POST /upload` endpoint: acquire the resume text, then run the
same generate-validate-retry loop; the call count is 0 when acquisition
fails. -/
def upload_resume (file : UploadFile) (model : String → Nat → String) :
    Except HTTPError ResumeScoreResponse × Nat :=
  match upload_acquire file with
  | .error e => (.error e, 0)
  | .ok rt =>
      let (r, n) := process_resume (pyStr rt) model
      (r.mapError procToHTTP, n)

example : upload_acquire ⟨"application/json", .ok [], "\x7b\"resume_text\": \"foo\"\x7d"⟩ =
    .ok (.jstr "foo") := by decide
example : upload_acquire ⟨"application/json", .ok [], "\x7b\"other\": \"bar\"\x7d"⟩ =
    .ok (.jstr "\x7b\"other\": \"bar\"\x7d") := by decide
example : upload_acquire ⟨"application/json", .ok [], "\x7b\"resume_text\": \"\"\x7d"⟩ =
    .ok (.jstr "\x7b\"resume_text\": \"\"\x7d") := by decide
example : upload_acquire ⟨"application/json", .ok [], "[1, 2]"⟩ =
    .error ⟨400, "Invalid JSON file"⟩ := by decide
example : upload_acquire ⟨"text/plain", .ok [], "x"⟩ =
    .error ⟨400, "Only PDF or JSON files are supported"⟩ := by decide
example : extract_text_from_pdf (.ok [some "a ", none, some "b"]) = .ok "a b" := by decide

-- ## Helper lemmas.

lemma allStrings_jstrList (ms : List String) : allStrings (jstrList ms) = some ms := by
  induction ms with
  | nil => simp [jstrList, allStrings]
  | cons a l ih => simp [jstrList, allStrings, ih]

lemma pydantic_validate_ne_nil (d : JFields) (r : ResumeScoreResponse)
    (h : pydantic_validate d = some r) : d ≠ .nil := by
  intro hd
  subst hd
  simp [pydantic_validate, dictGet, asStr] at h

-- ## Claim C4: validation checks types, never numeric range.

/-- C4: schema validation checks only field presence and types, never
numeric range: a JSON object whose six fields have the declared types
validates even when a score lies outside 1-10, and the out-of-range
value appears unchanged in the resulting `ResumeScoreResponse`. -/
theorem validation_ignores_score_range (d : JFields) (su fb : String)
    (q1 q2 q3 : ℚ) (ms : List String)
    (h1 : dictGet d "summary" = some (.jstr su))
    (h2 : dictGet d "skills_score" = some (.jnum q1))
    (h3 : dictGet d "experience_score" = some (.jnum q2))
    (h4 : dictGet d "overall_score" = some (.jnum q3))
    (h5 : dictGet d "feedback" = some (.jstr fb))
    (h6 : dictGet d "missing_aspects" = some (.jarr (jstrList ms)))
    (hrange : q1 < 1 ∨ 10 < q1 ∨ q2 < 1 ∨ 10 < q2 ∨ q3 < 1 ∨ 10 < q3) :
    pydantic_validate d = some ⟨su, q1, q2, q3, fb, ms⟩ := by
  simp [pydantic_validate, h1, h2, h3, h4, h5, h6, asStr, asNum, asStrList,
    allStrings_jstrList]

/-- Witness for C4: a document whose `skills_score` is 15 validates and
keeps the 15. -/
theorem validation_ignores_score_range_witness :
    pydantic_validate (.cons "summary" (.jstr "s") (.cons "skills_score" (.jnum 15)
      (.cons "experience_score" (.jnum 5) (.cons "overall_score" (.jnum 5)
      (.cons "feedback" (.jstr "f") (.cons "missing_aspects"
        (.jarr (.cons (.jstr "a") (.cons (.jstr "b") .nil))) .nil)))))) =
      some ⟨"s", 15, 5, 5, "f", ["a", "b"]⟩ :=
  validation_ignores_score_range _ "s" "f" 15 5 5 ["a", "b"]
    (by decide) (by decide) (by decide) (by decide) (by decide) (by decide)
    (Or.inr (Or.inl (by decide)))

-- ## Claim C5: `missing_aspects` accepts any list of strings.

/-- C5: for an otherwise schema-valid document, validation accepts any
list of strings for `missing_aspects`, whatever its length (including
the empty list), and returns it unchanged. -/
theorem validation_accepts_any_missing_aspects (d : JFields) (su fb : String)
    (q1 q2 q3 : ℚ) (ms : List String)
    (h1 : dictGet d "summary" = some (.jstr su))
    (h2 : dictGet d "skills_score" = some (.jnum q1))
    (h3 : dictGet d "experience_score" = some (.jnum q2))
    (h4 : dictGet d "overall_score" = some (.jnum q3))
    (h5 : dictGet d "feedback" = some (.jstr fb))
    (h6 : dictGet d "missing_aspects" = some (.jarr (jstrList ms))) :
    pydantic_validate d = some ⟨su, q1, q2, q3, fb, ms⟩ := by
  simp [pydantic_validate, h1, h2, h3, h4, h5, h6, asStr, asNum, asStrList,
    allStrings_jstrList]

/-- Witness for C5: the empty list and a five-element list are both
accepted for `missing_aspects`. -/
theorem validation_accepts_any_missing_aspects_witness :
    pydantic_validate (.cons "summary" (.jstr "s") (.cons "skills_score" (.jnum 5)
      (.cons "experience_score" (.jnum 5) (.cons "overall_score" (.jnum 5)
      (.cons "feedback" (.jstr "f") (.cons "missing_aspects" (.jarr .nil) .nil)))))) =
        some ⟨"s", 5, 5, 5, "f", []⟩ ∧
    pydantic_validate (.cons "summary" (.jstr "s") (.cons "skills_score" (.jnum 5)
      (.cons "experience_score" (.jnum 5) (.cons "overall_score" (.jnum 5)
      (.cons "feedback" (.jstr "f") (.cons "missing_aspects"
        (.jarr (jstrList ["a", "b", "c", "d", "e"])) .nil)))))) =
        some ⟨"s", 5, 5, 5, "f", ["a", "b", "c", "d", "e"]⟩ :=
  ⟨validation_accepts_any_missing_aspects _ "s" "f" 5 5 5 []
      (by decide) (by decide) (by decide) (by decide) (by decide) (by decide),
    validation_accepts_any_missing_aspects _ "s" "f" 5 5 5 ["a", "b", "c", "d", "e"]
      (by decide) (by decide) (by decide) (by decide) (by decide) (by decide)⟩

-- ## Claim C8: unsupported content types are rejected before any model call.

/-- C8: an upload whose content type is neither `application/pdf` nor
`application/json` fails with the UnsupportedMediaType error (HTTP 400,
detail "Only PDF or JSON files are supported") and zero model calls are
made. -/
theorem upload_unsupported_media_type (file : UploadFile) (model : String → Nat → String)
    (h1 : file.content_type ≠ "application/pdf")
    (h2 : file.content_type ≠ "application/json") :
    upload_resume file model =
      (.error ⟨400, "Only PDF or JSON files are supported"⟩, 0) := by
  simp [upload_resume, upload_acquire, h1, h2]

/-- Witness for C8: a `text/plain` upload is rejected with zero calls. -/
theorem upload_unsupported_media_type_witness :
    upload_resume ⟨"text/plain", .ok [], "hello"⟩ (fun _ _ => "x") =
      (.error ⟨400, "Only PDF or JSON files are supported"⟩, 0) :=
  upload_unsupported_media_type _ _ (by decide) (by decide)

-- ## Claim C9: a falsy `resume_text` field is treated as absent.

/-- C9: a JSON upload parsing to an object whose `resume_text` field
holds a falsy value (the empty string, null, 0 or false) uses the JSON
serialization of the whole document as resume text, not the field's
value — exactly as when the field is absent. -/
theorem upload_json_falsy_resume_text (body : String)
    (pd : Except String (List (Option String))) (d : JFields) (v : JValue)
    (hparse : json_loads body = some (.jobj d))
    (hget : dictGet d "resume_text" = some v)
    (hfalsy : v = .jstr "" ∨ v = .jnull ∨ v = .jnum 0 ∨ v = .jbool false) :
    upload_acquire ⟨"application/json", pd, body⟩ =
      .ok (.jstr (json_dumps (.jobj d))) := by
  have ht : truthy v = false := by
    rcases hfalsy with h | h | h | h <;> subst h <;> simp [truthy]
  simp [upload_acquire, hparse, hget, ht]

/-- Witness for C9: `\x7b"resume_text": 0\x7d` is serialized whole. -/
theorem upload_json_falsy_resume_text_witness :
    upload_acquire ⟨"application/json", .ok [], "\x7b\"resume_text\": 0\x7d"⟩ =
      .ok (.jstr (json_dumps (.jobj (.cons "resume_text" (.jnum 0) .nil)))) :=
  upload_json_falsy_resume_text _ (.ok []) _ (.jnum 0)
    (by decide) (by decide) (Or.inr (Or.inr (Or.inl rfl)))

-- ## Claim C10: a non-object JSON document is rejected like malformed JSON.

/-- C10: a JSON upload whose body parses to a non-object top-level value
(array, string, number, boolean or null) fails with the same
InvalidDocument error as malformed JSON (HTTP 400, detail "Invalid JSON
file") and no model call is made. -/
theorem upload_json_non_object (body : String)
    (pd : Except String (List (Option String))) (model : String → Nat → String)
    (v : JValue)
    (hparse : json_loads body = some v)
    (hnotobj : isObj v = false) :
    upload_resume ⟨"application/json", pd, body⟩ model =
      (.error ⟨400, "Invalid JSON file"⟩, 0) := by
  cases v <;> simp [isObj] at hnotobj <;>
    simp [upload_resume, upload_acquire, hparse]

/-- Witness for C10: the body `[1, 2]` is well-formed JSON but not an
object, and is rejected with zero model calls. -/
theorem upload_json_non_object_witness :
    upload_resume ⟨"application/json", .ok [], "[1, 2]"⟩ (fun _ _ => "x") =
      (.error ⟨400, "Invalid JSON file"⟩, 0) :=
  upload_json_non_object _ (.ok []) _ (.jarr (.cons (.jnum 1) (.cons (.jnum 2) .nil)))
    (by decide) (by decide)

-- ## Claim C1: three failed attempts give exactly 3 calls and a 500.

/-- C1: if the cleaned model output fails JSON parsing or schema
validation (the loop body returns `None`) on every one of the three
attempts, the `/score` endpoint makes exactly 3 model calls and then
fails with the ModelOutputInvalid `HTTPException` (HTTP 500); no partial
result is returned. -/
theorem score_all_attempts_invalid (resume_text : String)
    (model : String → Nat → String)
    (h : ∀ i, i < 3 → run_attempt model (build_prompt resume_text) i = .ok none) :
    score_resume resume_text model =
      (.error ⟨500, "Model failed to return valid JSON after 3 attempts"⟩, 3) := by
  have h0 := h 0 (by omega)
  have h1 := h 1 (by omega)
  have h2 := h 2 (by omega)
  simp [score_resume, process_resume, attempt_loop, h0, h1, h2, procToHTTP,
    Except.mapError]

/-- Witness for C1: a model that always answers `nope` produces three
calls and the 500. -/
theorem score_all_attempts_invalid_witness :
    score_resume "r" (fun _ _ => "nope") =
      (.error ⟨500, "Model failed to return valid JSON after 3 attempts"⟩, 3) :=
  score_all_attempts_invalid "r" (fun _ _ => "nope") (by decide)

-- ## Claim C2: the first validating attempt is returned immediately.

/-- C2: the retry loop returns the result of the first attempt whose
cleaned output parses and validates, with exactly `i + 1` model calls
when that is attempt `i` (`i < 3`): attempt 1 succeeding gives that
parsed object after one call, and attempts 1-2 failing with attempt 3
succeeding gives the attempt-3 result. -/
theorem score_first_valid_attempt (resume_text : String)
    (model : String → Nat → String) (i : Nat) (d : JFields)
    (r : ResumeScoreResponse)
    (hi : i < 3)
    (hprev : ∀ j, j < i → run_attempt model (build_prompt resume_text) j = .ok none)
    (hcur : run_attempt model (build_prompt resume_text) i = .ok (some d))
    (hval : pydantic_validate d = some r) :
    score_resume resume_text model = (.ok r, i + 1) := by
  have hne : d ≠ .nil := pydantic_validate_ne_nil d r hval
  interval_cases i
  · simp [score_resume, process_resume, attempt_loop, hcur, hne, hval,
      Except.mapError]
  · have h0 := hprev 0 (by omega)
    simp [score_resume, process_resume, attempt_loop, h0, hcur, hne, hval,
      Except.mapError]
  · have h0 := hprev 0 (by omega)
    have h1 := hprev 1 (by omega)
    simp [score_resume, process_resume, attempt_loop, h0, h1, hcur, hne, hval,
      Except.mapError]

/-- The model used by the C2 witness: it answers a schema-valid JSON
document on every call. -/
def validModel : String → Nat → String := fun _ _ =>
  "\x7b\"summary\": \"s\", \"skills_score\": 5, \"experience_score\": 6, \"overall_score\": 7, \"feedback\": \"f\", \"missing_aspects\": [\"a\", \"b\"]\x7d"

/-- The dict parsed from `validModel`'s answer. -/
def validDict : JFields :=
  .cons "summary" (.jstr "s") (.cons "skills_score" (.jnum 5)
    (.cons "experience_score" (.jnum 6) (.cons "overall_score" (.jnum 7)
    (.cons "feedback" (.jstr "f") (.cons "missing_aspects"
      (.jarr (.cons (.jstr "a") (.cons (.jstr "b") .nil))) .nil)))))

/-- Witness for C2: with a valid first answer the endpoint returns its
parsed object after exactly one model call. -/
theorem score_first_valid_attempt_witness :
    score_resume "r" validModel = (.ok ⟨"s", 5, 6, 7, "f", ["a", "b"]⟩, 1) :=
  score_first_valid_attempt "r" validModel 0 validDict _ (by omega)
    (fun j hj => absurd hj (by omega)) (by decide) (by decide)

-- ## Claim C7 (corrected): PDF text is the trimmed concatenation.

/-- Counterexample to C7 as stated: a one-page PDF whose page text is
`"a "` (extractable text on every page) yields resume text `"a"`, not
the concatenation `"a "` — `extract_text_from_pdf` ends with
`.strip()`. -/
theorem pdf_text_not_raw_concatenation :
    extract_text_from_pdf (.ok [some "a "]) = .ok "a" ∧
      (Except.ok "a" : Except HTTPError String) ≠ .ok "a " := by decide

/-- C7 as amended: for a PDF that opens, the resume text equals the
concatenation of the per-page extracted text in page order, trimmed of
leading and trailing whitespace; a page contributing no text contributes
the empty string rather than causing an error. -/
theorem pdf_text_is_trimmed_concatenation (pages : List (Option String)) :
    extract_text_from_pdf (.ok pages) =
      .ok (pyStrip (String.join (pages.map (fun p => p.getD "")))) := by
  simp [extract_text_from_pdf, String.join, List.foldl_map]

-- ## Claim C6 (corrected): `resume_text` field used only when truthy.

/-- Counterexample to C6 as stated: the upload
`\x7b"resume_text": ""\x7d` has a `resume_text` field, yet the resume
text is the serialized document, not the field's value `""` —
`data.get("resume_text") or json.dumps(data)` discards falsy values. -/
theorem upload_json_field_value_not_always_used :
    upload_acquire ⟨"application/json", .ok [], "\x7b\"resume_text\": \"\"\x7d"⟩ =
        .ok (.jstr "\x7b\"resume_text\": \"\"\x7d") ∧
      upload_acquire ⟨"application/json", .ok [], "\x7b\"resume_text\": \"\"\x7d"⟩ ≠
        .ok (.jstr "") := by decide

/-- C6 as amended: for a JSON upload parsing to an object, a truthy
`resume_text` field value is used as the resume text (so
`\x7b"resume_text": "foo"\x7d` yields `"foo"`); an absent — or falsy —
field means the resume text is the JSON serialization of the whole
document; a body that is not parseable as JSON fails with the
InvalidDocument error (HTTP 400, "Invalid JSON file"). -/
theorem upload_json_resume_text_acquisition (body : String)
    (pd : Except String (List (Option String))) (d : JFields) :
    (json_loads body = some (.jobj d) →
      (∀ v, dictGet d "resume_text" = some v → truthy v = true →
          upload_acquire ⟨"application/json", pd, body⟩ = .ok v) ∧
      (dictGet d "resume_text" = none →
          upload_acquire ⟨"application/json", pd, body⟩ =
            .ok (.jstr (json_dumps (.jobj d)))) ∧
      (∀ v, dictGet d "resume_text" = some v → truthy v = false →
          upload_acquire ⟨"application/json", pd, body⟩ =
            .ok (.jstr (json_dumps (.jobj d))))) ∧
    (json_loads body = none →
        upload_acquire ⟨"application/json", pd, body⟩ =
          .error ⟨400, "Invalid JSON file"⟩) := by
  constructor
  · intro hparse
    refine ⟨fun v hget ht => ?_, fun hget => ?_, fun v hget ht => ?_⟩
    · simp [upload_acquire, hparse, hget, ht]
    · simp [upload_acquire, hparse, hget]
    · simp [upload_acquire, hparse, hget, ht]
  · intro hparse
    simp [upload_acquire, hparse]

/-- Witness for C6 (amended): `\x7b"resume_text": "foo"\x7d` yields
`"foo"`. -/
theorem upload_json_resume_text_acquisition_witness :
    upload_acquire ⟨"application/json", .ok [], "\x7b\"resume_text\": \"foo\"\x7d"⟩ =
      .ok (.jstr "foo") :=
  ((upload_json_resume_text_acquisition _ (.ok [])
      (.cons "resume_text" (.jstr "foo") .nil)).1 (by decide)).1
    (.jstr "foo") (by decide) (by decide)

-- ## Claim C3 (corrected): `clean_json` also deletes "json" from the payload.

/-- Counterexample to C3 as stated: the fenced response whose payload
mentions `json` is not cleaned to the bare payload — the
`replace("json", "")` of `clean_json` deletes the occurrence inside the
payload as well. -/
theorem clean_json_modifies_payload :
    clean_json "```json\n\x7b\"summary\": \"json expert\"\x7d\n```" =
        "\x7b\"summary\": \" expert\"\x7d" ∧
      clean_json "```json\n\x7b\"summary\": \"json expert\"\x7d\n```" ≠
        "\x7b\"summary\": \"json expert\"\x7d" := by decide

lemma listMatches_append_single_false (pat : List Char) (c : Char) (hc : c ∉ pat) :
    ∀ ys, listMatches pat ys = false → listMatches pat (ys ++ [c]) = false := by
  induction pat with
  | nil => intro ys h; simp [listMatches] at h
  | cons p ps ih =>
      intro ys h
      cases ys with
      | nil =>
          have hpc : p ≠ c := fun he => hc (he ▸ List.mem_cons_self p ps)
          simp [listMatches, hpc]
      | cons y ys' =>
          by_cases hpy : p = y
          · subst hpy
            have h' : listMatches ps ys' = false := by simpa [listMatches] using h
            have := ih (fun hmem => hc (List.mem_cons_of_mem p hmem)) ys' h'
            simpa [listMatches] using this
          · simp [listMatches, hpy]

lemma hasOcc_append_single (p : Char) (ps : List Char) (c : Char)
    (hc : c ∉ p :: ps) :
    ∀ cs, hasOcc (p :: ps) cs = false → hasOcc (p :: ps) (cs ++ [c]) = false := by
  intro cs
  induction cs with
  | nil =>
      intro _
      have h1 : listMatches (p :: ps) [] = false := rfl
      have h2 := listMatches_append_single_false (p :: ps) c hc [] h1
      simp only [List.nil_append] at h2 ⊢
      simp [hasOcc, h1, h2]
  | cons x xs ih =>
      intro h
      rw [hasOcc, Bool.or_eq_false_iff] at h
      obtain ⟨hm, hrest⟩ := h
      rw [List.cons_append, hasOcc, Bool.or_eq_false_iff]
      exact ⟨listMatches_append_single_false (p :: ps) c hc (x :: xs) hm, ih hrest⟩

lemma replaceFrom_no_occ (p : Char) (ps rep : List Char) :
    ∀ fuel cs, cs.length ≤ fuel → hasOcc (p :: ps) cs = false →
      replaceFrom fuel (p :: ps) rep cs = cs := by
  intro fuel
  induction fuel with
  | zero => intro cs _ _; rfl
  | succ f ih =>
      intro cs hlen hocc
      cases cs with
      | nil => rfl
      | cons x xs =>
          rw [hasOcc, Bool.or_eq_false_iff] at hocc
          obtain ⟨hm, hrest⟩ := hocc
          have hlen' : xs.length ≤ f := by
            simp [List.length_cons] at hlen; omega
          simp [replaceFrom, hm]
          exact ih xs hlen' hrest

lemma listMatches_append_self (pat rest : List Char) :
    listMatches pat (pat ++ rest) = true := by
  induction pat with
  | nil => rfl
  | cons p ps ih => simp [listMatches, ih]

lemma replaceFrom_head_match (f : Nat) (p : Char) (ps rep rest : List Char) :
    replaceFrom (f + 1) (p :: ps) rep ((p :: ps) ++ rest) =
      rep ++ replaceFrom f (p :: ps) rep rest := by
  have hm := listMatches_append_self (p :: ps) rest
  have hd : List.drop (p :: ps).length ((p :: ps) ++ rest) = rest := List.drop_left _ _
  rw [List.cons_append] at hm hd
  rw [List.cons_append, replaceFrom, if_pos hm, hd]

lemma dropWhile_append_split (f : Char → Bool) (l1 l2 : List Char) :
    List.dropWhile f (l1 ++ l2) =
      if (List.dropWhile f l1).isEmpty then List.dropWhile f l2
      else List.dropWhile f l1 ++ l2 := by
  induction l1 with
  | nil => simp
  | cons x xs ih =>
      by_cases hx : f x
      · simp [List.dropWhile_cons, hx, ih]
      · simp [List.dropWhile_cons, hx]

lemma dropWhile_append_of_all (f : Char → Bool) (xs rest : List Char)
    (h : ∀ c ∈ xs, f c = true) :
    List.dropWhile f (xs ++ rest) = List.dropWhile f rest := by
  induction xs with
  | nil => simp
  | cons x xs' ih =>
      have hx : f x = true := h x (List.mem_cons_self x xs')
      simp [List.dropWhile_cons, hx, ih (fun c hc => h c (List.mem_cons_of_mem _ hc))]

lemma stripEnds_sandwich (f : Char → Bool) (pre suf : List Char) (a b : Char)
    (mid : List Char)
    (hpre : ∀ c ∈ pre, f c = true) (hsuf : ∀ c ∈ suf, f c = true)
    (ha : f a = false) (hb : f b = false) :
    stripEnds f (pre ++ (a :: (mid ++ [b])) ++ suf) = a :: (mid ++ [b]) := by
  unfold stripEnds
  have h1 : List.dropWhile f ((pre ++ (a :: (mid ++ [b]))) ++ suf) =
      a :: ((mid ++ [b]) ++ suf) := by
    rw [List.append_assoc, dropWhile_append_of_all f pre _ hpre]
    rw [List.cons_append, List.dropWhile_cons]
    simp [ha]
  rw [h1]
  have h2 : (a :: ((mid ++ [b]) ++ suf)).reverse =
      suf.reverse ++ (b :: (mid.reverse ++ [a])) := by
    simp [List.reverse_append]
  rw [h2]
  have h3 : List.dropWhile f (suf.reverse ++ (b :: (mid.reverse ++ [a]))) =
      b :: (mid.reverse ++ [a]) := by
    rw [dropWhile_append_of_all f suf.reverse _
      (fun c hc => hsuf c (List.mem_reverse.mp hc))]
    rw [List.dropWhile_cons]
    simp [hb]
  rw [h3]
  simp

lemma stripEnds_pad (f : Char → Bool) (c : Char) (hc : f c = true) (xs : List Char) :
    stripEnds f (c :: (xs ++ [c])) = stripEnds f xs := by
  unfold stripEnds
  rw [List.dropWhile_cons_of_pos hc, dropWhile_append_split]
  cases hdw : List.dropWhile f xs with
  | nil =>
      simp [List.dropWhile_cons, hc]
  | cons y ys =>
      simp only [List.isEmpty_cons, Bool.false_eq_true, if_false]
      simp [List.reverse_append, List.dropWhile_cons, hc]

/-- C3 as amended: when the raw response starts with a code fence,
`clean_json` strips the backticks at both ends, deletes every occurrence
of the substring `"json"` in the de-fenced text — not only the language
tag — and trims whitespace.  Hence a fence-wrapped document whose
payload contains no occurrence of `"json"` is cleaned to exactly the
bare (trimmed) payload, while a payload containing `"json"` is modified
(see the counterexample). -/
lemma pyReplace_tag (rest : List Char)
    (hocc : hasOcc ['j', 's', 'o', 'n'] rest = false) :
    pyReplace (String.mk (['j', 's', 'o', 'n'] ++ rest)) "json" "" = String.mk rest := by
  unfold pyReplace
  congr 1
  have hjson : ("json" : String).data = ['j', 's', 'o', 'n'] := rfl
  have hempty : ("" : String).data = [] := rfl
  have hdat : (String.mk (['j', 's', 'o', 'n'] ++ rest)).data =
      ['j', 's', 'o', 'n'] ++ rest := rfl
  have hlen : (String.mk (['j', 's', 'o', 'n'] ++ rest)).length + 1 =
      (rest.length + 4) + 1 := by
    simp [String.length]
  rw [hjson, hempty, hdat, hlen, replaceFrom_head_match, List.nil_append]
  exact replaceFrom_no_occ 'j' ['s', 'o', 'n'] [] (rest.length + 4) rest
    (by omega) hocc

/-- C3 as amended: when the raw response starts with a code fence,
`clean_json` strips the backticks at both ends, deletes every occurrence
of the substring `"json"` in the de-fenced text — not only the language
tag — and trims whitespace.  Hence a fence-wrapped document whose
payload contains no occurrence of `"json"` is cleaned to exactly the
bare (trimmed) payload, while a payload containing `"json"` is modified
(see the counterexample). -/
theorem clean_json_fenced_payload (p : String)
    (hno : strContains p "json" = false) :
    clean_json ("```json\n" ++ p ++ "\n```") = pyStrip p := by
  have e1 : ("```json\n" : String).data = ['`', '`', '`', 'j', 's', 'o', 'n', '\n'] := rfl
  have e2 : ("\n```" : String).data = ['\n', '`', '`', '`'] := rfl
  have hdata : ("```json\n" ++ p ++ "\n```").data =
      ['`', '`', '`'] ++ ('j' :: ((['s', 'o', 'n', '\n'] ++ p.data) ++ ['\n'])) ++
        ['`', '`', '`'] := by
    simp [e1, e2, List.append_assoc]
  have hsw : strStartsWith ("```json\n" ++ p ++ "\n```") "```" = true := by
    unfold strStartsWith
    rw [hdata]
    rfl
  unfold clean_json
  rw [if_pos hsw]
  have hstrip : pyStripChar '`' ("```json\n" ++ p ++ "\n```") =
      String.mk ('j' :: ((['s', 'o', 'n', '\n'] ++ p.data) ++ ['\n'])) := by
    unfold pyStripChar
    rw [hdata]
    congr 1
    exact stripEnds_sandwich _ _ _ 'j' '\n' _
      (by decide) (by decide) (by decide) (by decide)
  rw [hstrip]
  have hshape : ('j' :: ((['s', 'o', 'n', '\n'] ++ p.data) ++ ['\n'])) =
      ['j', 's', 'o', 'n'] ++ ('\n' :: (p.data ++ ['\n'])) := by
    simp [List.append_assoc]
  rw [hshape]
  have h0 : hasOcc ['j', 's', 'o', 'n'] p.data = false := hno
  have h1 := hasOcc_append_single 'j' ['s', 'o', 'n'] '\n' (by decide) p.data h0
  have h2 : hasOcc ['j', 's', 'o', 'n'] ('\n' :: (p.data ++ ['\n'])) = false := by
    rw [hasOcc, Bool.or_eq_false_iff]
    exact ⟨rfl, h1⟩
  rw [pyReplace_tag _ h2]
  unfold pyStrip
  congr 1
  exact stripEnds_pad pyIsSpace '\n' (by decide) p.data

/-- Witness for C3 (amended): a fenced payload free of the substring
`json` is cleaned to exactly the bare payload. -/
theorem clean_json_fenced_payload_witness :
    clean_json ("```json\n" ++ "\x7b\"a\": 1\x7d" ++ "\n```") =
      pyStrip "\x7b\"a\": 1\x7d" :=
  clean_json_fenced_payload "\x7b\"a\": 1\x7d" (by decide)
